import Mathlib

/-!
# Message tracer of nsqd (`nsqd/tracer.go`)

A shallow embedding of the two trace recorders of `nsqd/tracer.go`
(`LogMsgTracer`, `RemoteMsgTracer`), of the process-wide recorder
`nsqMsgTracer` and of `SetRemoteMsgTracer`, followed by theorems about them.

The collaborators of the file (the clock, the logger `nsqLog`, the flume
transport) are kept at their call boundary: every call made to them is
appended, in program order, to `World.out`, and what they hand back (clock
readings, the result of a send, the log level) is read from the `World`.
-/

namespace nsqd

set_option linter.unusedVariables false

/-! ## Data declared outside `tracer.go` -/

/-- Modelled from the spec: the type `MessageID` is declared outside
`tracer.go`. An identifier is kept by the text that `%v` prints for it, the
way the spec writes message ids (`"m1"`). -/
structure MessageID where
  text : String
deriving DecidableEq, Repr

/-- Modelled from the spec: `BackendOffset`, a position in the backing log of a
topic, is declared outside `tracer.go`; a signed 64 bit integer. -/
abbrev BackendOffset := Int

/-- Modelled from the spec: the type `Message` is declared outside
`tracer.go`. These are the four fields that `tracer.go` reads: `ID`,
`TraceID` (uint64), `offset` and `Attempts` (uint16). -/
structure Message where
  ID : MessageID
  TraceID : Nat
  offset : BackendOffset
  Attempts : Nat
deriving DecidableEq, Repr

/-- A Go `error` value that is not nil, kept by the text of its `Error()`. -/
structure GoError where
  text : String
deriving DecidableEq, Repr

/-- The values that `tracer.go` passes as `interface{}` arguments to the
formatting functions and to `AddLogItem`, tagged with their Go type. -/
inductive LogValue where
  | str (s : String)
  | uint64 (n : Nat)
  | int64 (n : Int)
  | uint16 (n : Nat)
  | msgID (id : MessageID)
  | offset (o : BackendOffset)
  | err (e : GoError)
deriving DecidableEq, Repr

/-- What the verb `%v` prints for a value. -/
def LogValue.render : LogValue → String
  | .str s => s
  | .uint64 n => toString n
  | .int64 n => toString n
  | .uint16 n => toString n
  | .msgID id => id.text
  | .offset o => toString o
  | .err e => e.text

/-- The Go type name of a value, as `fmt` prints it in `%!(EXTRA ...)`; for an
error, whose dynamic type `tracer.go` does not fix, the type of `errors.New`. -/
def LogValue.goType : LogValue → String
  | .str _ => "string"
  | .uint64 _ => "uint64"
  | .int64 _ => "int64"
  | .uint16 _ => "uint16"
  | .msgID _ => "nsqd.MessageID"
  | .offset _ => "nsqd.BackendOffset"
  | .err _ => "*errors.errorString"

/-- The surplus arguments of a format, as `fmt` lists them. -/
def extraArgs : List LogValue → List Char
  | [] => []
  | [a] => a.goType.data ++ '=' :: a.render.data
  | a :: b :: rest =>
    a.goType.data ++ '=' :: a.render.data ++ ", ".data ++ extraArgs (b :: rest)

/-- The walk of `fmt.Sprintf` over a format whose only verb is `%v` (the
formats of `tracer.go` have no other): a `%v` prints the next argument, a verb
that finds no argument left prints `%!v(MISSING)`, every other character is
copied, and arguments left over at the end are listed as `%!(EXTRA ...)`. -/
def sprintfAux : List Char → List LogValue → List Char
  | '%' :: 'v' :: rest, a :: args => a.render.data ++ sprintfAux rest args
  | '%' :: 'v' :: rest, [] => "%!v(MISSING)".data ++ sprintfAux rest []
  | c :: rest, args => c :: sprintfAux rest args
  | [], [] => []
  | [], a :: args => "%!(EXTRA ".data ++ extraArgs (a :: args) ++ [')']

/-- The text of `fmt.Sprintf(format, args...)`. -/
def Sprintf (format : String) (args : List LogValue) : String :=
  String.mk (sprintfAux format.data args)

/-- Modelled from the spec: package `flume_log` is outside `src/`. A detail
record is the module it was created for and the items added to it, in the
order of the `AddLogItem` calls. -/
structure DetailInfo where
  module : String
  items : List (String × LogValue)
deriving DecidableEq, Repr

/-- Modelled from the spec: `flume_log.NewDetailInfo(module)`, an empty detail
record for a module. -/
def NewDetailInfo (module : String) : DetailInfo :=
  { module := module, items := [] }

/-- Modelled from the spec: `detail.AddLogItem(key, value)` adds one named
item to the record, after those already there. -/
def DetailInfo.AddLogItem (d : DetailInfo) (key : String) (value : LogValue) : DetailInfo :=
  { d with items := d.items ++ [(key, value)] }

/-- Modelled from the spec: the transport `flume_log.FlumeLogger`, kept by the
address it was constructed for. -/
structure FlumeLogger where
  addr : String
deriving DecidableEq, Repr

/-- Modelled from the spec: `flume_log.NewFlumeLoggerWithAddr(addr)`. -/
def NewFlumeLoggerWithAddr (addr : String) : FlumeLogger :=
  { addr := addr }

/-! ## The recorders -/

/-- The constant `traceModule`. -/
def traceModule : String := "msgtracer"

/-- The struct `LogMsgTracer`. -/
structure LogMsgTracer where
  MID : String
deriving DecidableEq, Repr

/-- The struct `RemoteMsgTracer`; the two pointers are kept by the value they
point to. -/
structure RemoteMsgTracer where
  remoteAddr : String
  remoteLogger : FlumeLogger
  localTracer : LogMsgTracer
deriving DecidableEq, Repr

/-- The interface `IMsgTracer`, with its two implementations. -/
inductive IMsgTracer where
  | log (t : LogMsgTracer)
  | remote (t : RemoteMsgTracer)
deriving DecidableEq, Repr

/-- A call that `tracer.go` makes to a collaborator. -/
inductive Event where
  /-- The call `nsqLog.Logf(format, args...)`: one line of the local log. -/
  | logf (format : String) (args : List LogValue)
  /-- The call `nsqLog.Warningf(format, args...)`: one local warning. -/
  | warningf (format : String) (args : List LogValue)
  /-- The call `logger.Info(l, detail)` on a flume transport. -/
  | info (logger : FlumeLogger) (l : String) (detail : DetailInfo)
deriving DecidableEq, Repr

/-- The text of a local line or warning, and the summary line of a send. -/
def Event.text : Event → String
  | .logf format args => Sprintf format args
  | .warningf format args => Sprintf format args
  | .info _ l _ => l

/-- The process state that `tracer.go` reads and writes. -/
structure World where
  /-- The successive readings of `time.Now().UnixNano()`. -/
  clock : Nat → Int
  /-- How many clock readings have been taken. -/
  ticks : Nat
  /-- What `nsqLog.Level()` returns. -/
  level : Int
  /-- The result of the successive `Info` calls, `none` for a nil error. -/
  sendResult : Nat → Option GoError
  /-- How many `Info` calls have been made. -/
  sends : Nat
  /-- The calls made to the logger and to the transport, oldest first. -/
  out : List Event
  /-- The package variable `nsqMsgTracer`, `none` for nil. -/
  nsqMsgTracer : Option IMsgTracer

/-- One reading of `time.Now().UnixNano()`. -/
def World.now (w : World) : Int × World :=
  (w.clock w.ticks, { w with ticks := w.ticks + 1 })

/-- The call `nsqLog.Logf(format, args...)`. -/
def World.Logf (w : World) (format : String) (args : List LogValue) : World :=
  { w with out := w.out ++ [Event.logf format args] }

/-- The call `nsqLog.Warningf(format, args...)`. -/
def World.Warningf (w : World) (format : String) (args : List LogValue) : World :=
  { w with out := w.out ++ [Event.warningf format args] }

/-- The call `logger.Info(l, detail)`, with the error it returns. -/
def World.Info (w : World) (logger : FlumeLogger) (l : String) (detail : DetailInfo) :
    Option GoError × World :=
  (w.sendResult w.sends,
    { w with sends := w.sends + 1, out := w.out ++ [Event.info logger l detail] })

/-- The state a method call runs on: the receiver `self`, the message that
`msg` points to, and the process state. -/
structure Frame (R : Type) where
  self : R
  msg : Message
  world : World

/-- The format of the publish line. -/
def pubFormat : String :=
  "[TRACE] topic %v trace id %v: message %v put at offset: %v, current count: %v at time %v"

/-- The format of the subscribe line. -/
def subFormat : String :=
  "[TRACE] topic %v trace id %v: message %v (offset: %v) consume state %v from client %v at time: %v, attempt: %v"

/-- The format of the warning of a failed send. -/
def warnFormat : String := "send log to remote error: %v"

/-- The method `(*LogMsgTracer).Start`. -/
def LogMsgTracer.Start (f : Frame LogMsgTracer) : Frame LogMsgTracer := f

/-- The method `(*LogMsgTracer).TracePub`. -/
def LogMsgTracer.TracePub (f : Frame LogMsgTracer) (topic : String) (traceID : Nat)
    (diskOffset : BackendOffset) (currentCnt : Int) : Frame LogMsgTracer :=
  let (t, w) := f.world.now
  { f with world := w.Logf pubFormat [.str topic, .uint64 f.msg.TraceID, .msgID f.msg.ID,
      .offset diskOffset, .int64 currentCnt, .int64 t] }

/-- The method `(*LogMsgTracer).TraceSub`. -/
def LogMsgTracer.TraceSub (f : Frame LogMsgTracer) (topic : String) (state : String)
    (traceID : Nat) (clientID : String) : Frame LogMsgTracer :=
  let (t, w) := f.world.now
  { f with world := w.Logf subFormat [.str topic, .uint64 f.msg.TraceID, .msgID f.msg.ID,
      .offset f.msg.offset, .str state, .str clientID, .int64 t, .uint16 f.msg.Attempts] }

/-- The function `NewRemoteMsgTracer`. -/
def NewRemoteMsgTracer (remote : String) : IMsgTracer :=
  .remote
    { remoteAddr := remote
      remoteLogger := NewFlumeLoggerWithAddr remote
      localTracer := { MID := "" } }

/-- The call of a method of the local tracer from a method of the remote one:
the callee runs on `self.localTracer`, and `self.localTracer` is what it
leaves. -/
def RemoteMsgTracer.onLocal (f : Frame RemoteMsgTracer)
    (m : Frame LogMsgTracer → Frame LogMsgTracer) : Frame RemoteMsgTracer :=
  let g := m { self := f.self.localTracer, msg := f.msg, world := f.world }
  { self := { f.self with localTracer := g.self }, msg := g.msg, world := g.world }

/-- The method `(*RemoteMsgTracer).Start`. -/
def RemoteMsgTracer.Start (f : Frame RemoteMsgTracer) : Frame RemoteMsgTracer :=
  RemoteMsgTracer.onLocal f LogMsgTracer.Start

/-- The method `(*RemoteMsgTracer).TracePub`; `LOG_DEBUG` is the constant
`levellogger.LOG_DEBUG`, declared outside `src/`. -/
def RemoteMsgTracer.TracePub (LOG_DEBUG : Int) (f : Frame RemoteMsgTracer) (topic : String)
    (traceID : Nat) (diskOffset : BackendOffset) (currentCnt : Int) : Frame RemoteMsgTracer :=
  let (now, w) := f.world.now
  let detail := NewDetailInfo traceModule
  let detail := detail.AddLogItem "msgid" (.msgID f.msg.ID)
  let detail := detail.AddLogItem "traceid" (.uint64 f.msg.TraceID)
  let detail := detail.AddLogItem "topic" (.str topic)
  let detail := detail.AddLogItem "timestamp" (.int64 now)
  let detail := detail.AddLogItem "action" (.str "PUB")
  let l := Sprintf pubFormat
    [.str topic, .uint64 f.msg.TraceID, .msgID f.msg.ID, .offset diskOffset,
      .int64 currentCnt, .int64 now]
  let (err, w) := w.Info f.self.remoteLogger l detail
  if err ≠ none ∨ LOG_DEBUG ≤ w.level then
    let w := match err with
      | some e => w.Warningf warnFormat [.err e]
      | none => w
    RemoteMsgTracer.onLocal { f with world := w }
      (fun g => LogMsgTracer.TracePub g topic traceID diskOffset currentCnt)
  else
    { f with world := w }

/-- The method `(*RemoteMsgTracer).TraceSub`; `LOG_DEBUG` is the constant
`levellogger.LOG_DEBUG`, declared outside `src/`. -/
def RemoteMsgTracer.TraceSub (LOG_DEBUG : Int) (f : Frame RemoteMsgTracer) (topic : String)
    (state : String) (traceID : Nat) (clientID : String) : Frame RemoteMsgTracer :=
  let (now, w) := f.world.now
  let detail := NewDetailInfo traceModule
  let detail := detail.AddLogItem "msgid" (.msgID f.msg.ID)
  let detail := detail.AddLogItem "traceid" (.uint64 f.msg.TraceID)
  let detail := detail.AddLogItem "topic" (.str topic)
  let detail := detail.AddLogItem "timestamp" (.int64 now)
  let detail := detail.AddLogItem "action" (.str state)
  let (t, w) := w.now
  let l := Sprintf subFormat
    [.str topic, .uint64 f.msg.TraceID, .msgID f.msg.ID, .offset f.msg.offset,
      .str state, .str clientID, .int64 t, .uint16 f.msg.Attempts]
  let (err, w) := w.Info f.self.remoteLogger l detail
  if err ≠ none ∨ LOG_DEBUG ≤ w.level then
    let w := match err with
      | some e => w.Warningf warnFormat [.err e]
      | none => w
    RemoteMsgTracer.onLocal { f with world := w }
      (fun g => LogMsgTracer.TraceSub g topic state traceID clientID)
  else
    { f with world := w }

/-- The function `SetRemoteMsgTracer`. -/
def SetRemoteMsgTracer (w : World) (remote : String) : World :=
  if remote ≠ "" then { w with nsqMsgTracer := some (NewRemoteMsgTracer remote) } else w

/-- The package function `init`. -/
def init (w : World) : World :=
  { w with nsqMsgTracer := some (.log { MID := "" }) }

/-- A call of `TracePub` through the interface: the method of the dynamic type
of the receiver runs. -/
def IMsgTracer.TracePub (LOG_DEBUG : Int) (f : Frame IMsgTracer) (topic : String)
    (traceID : Nat) (diskOffset : BackendOffset) (currentCnt : Int) : Frame IMsgTracer :=
  match f.self with
  | .log t =>
    let g := LogMsgTracer.TracePub { self := t, msg := f.msg, world := f.world }
      topic traceID diskOffset currentCnt
    { self := .log g.self, msg := g.msg, world := g.world }
  | .remote t =>
    let g := RemoteMsgTracer.TracePub LOG_DEBUG { self := t, msg := f.msg, world := f.world }
      topic traceID diskOffset currentCnt
    { self := .remote g.self, msg := g.msg, world := g.world }

/-- A call of `TraceSub` through the interface. -/
def IMsgTracer.TraceSub (LOG_DEBUG : Int) (f : Frame IMsgTracer) (topic : String)
    (state : String) (traceID : Nat) (clientID : String) : Frame IMsgTracer :=
  match f.self with
  | .log t =>
    let g := LogMsgTracer.TraceSub { self := t, msg := f.msg, world := f.world }
      topic state traceID clientID
    { self := .log g.self, msg := g.msg, world := g.world }
  | .remote t =>
    let g := RemoteMsgTracer.TraceSub LOG_DEBUG { self := t, msg := f.msg, world := f.world }
      topic state traceID clientID
    { self := .remote g.self, msg := g.msg, world := g.world }

/-- A text occurs in a line. -/
def occursIn (piece line : String) : Prop := piece.data <:+: line.data

instance (piece line : String) : Decidable (occursIn piece line) := by
  unfold occursIn; infer_instance

/-- A local line. -/
def Event.isLogf : Event → Bool
  | .logf _ _ => true
  | _ => false

/-- A local warning. -/
def Event.isWarningf : Event → Bool
  | .warningf _ _ => true
  | _ => false

/-- A send on the transport. -/
def Event.isInfo : Event → Bool
  | .info _ _ _ => true
  | _ => false

/-- The calls made between two states of the process, oldest first. -/
def emitted (before after : World) : List Event :=
  after.out.drop before.out.length

/-- The value of a named item of a detail record. -/
def DetailInfo.item (d : DetailInfo) (key : String) : Option LogValue :=
  d.items.lookup key

/-- A process state in which nothing was logged or sent yet and `init` has run:
the clock reads 100, 101, 102, ..., the log level is `level` and every send
returns `sendResult`. -/
def World.fresh (level : Int) (sendResult : Option GoError) : World :=
  init
    { clock := fun n => 100 + n
      ticks := 0
      level := level
      sendResult := fun _ => sendResult
      sends := 0
      out := []
      nsqMsgTracer := none }

/-- The message of the scenarios of the spec: id `m1`, trace id 42, offset
1000, second attempt. -/
def scenarioMsg : Message :=
  { ID := { text := "m1" }, TraceID := 42, offset := 1000, Attempts := 2 }

/-- A remote recorder for the collector at `127.0.0.1:5140`. -/
def scenarioRemote : RemoteMsgTracer :=
  { remoteAddr := "127.0.0.1:5140"
    remoteLogger := NewFlumeLoggerWithAddr "127.0.0.1:5140"
    localTracer := { MID := "" } }

/-! ## The text of the lines -/

theorem Sprintf_pubFormat (a1 a2 a3 a4 a5 a6 : LogValue) :
    (Sprintf pubFormat [a1, a2, a3, a4, a5, a6]).data =
      "[TRACE] topic ".data ++ (a1.render.data ++ (" trace id ".data ++ (a2.render.data ++
        (": message ".data ++ (a3.render.data ++ (" put at offset: ".data ++
        (a4.render.data ++ (", current count: ".data ++ (a5.render.data ++
        (" at time ".data ++ a6.render.data)))))))))) := by
  simp [Sprintf, pubFormat, sprintfAux]

theorem Sprintf_subFormat (a1 a2 a3 a4 a5 a6 a7 a8 : LogValue) :
    (Sprintf subFormat [a1, a2, a3, a4, a5, a6, a7, a8]).data =
      "[TRACE] topic ".data ++ (a1.render.data ++ (" trace id ".data ++ (a2.render.data ++
        (": message ".data ++ (a3.render.data ++ (" (offset: ".data ++
        (a4.render.data ++ (") consume state ".data ++ (a5.render.data ++
        (" from client ".data ++ (a6.render.data ++ (" at time: ".data ++
        (a7.render.data ++ (", attempt: ".data ++ a8.render.data)))))))))))))) := by
  simp [Sprintf, subFormat, sprintfAux]

theorem Sprintf_warnFormat (a : LogValue) :
    (Sprintf warnFormat [a]).data = "send log to remote error: ".data ++ a.render.data := by
  simp [Sprintf, warnFormat, sprintfAux]

theorem emitted_append (w w' : World) (evs : List Event) (h : w'.out = w.out ++ evs) :
    emitted w w' = evs := by
  simp [emitted, h]

/-! ## What a call leaves -/

theorem LogMsgTracer.TracePub_line (f : Frame LogMsgTracer) (topic : String) (traceID : Nat)
    (diskOffset : BackendOffset) (currentCnt : Int) :
    (LogMsgTracer.TracePub f topic traceID diskOffset currentCnt).world.out =
      f.world.out ++
        [Event.logf pubFormat [.str topic, .uint64 f.msg.TraceID, .msgID f.msg.ID,
          .offset diskOffset, .int64 currentCnt, .int64 (f.world.clock f.world.ticks)]] := by
  simp [LogMsgTracer.TracePub, World.now, World.Logf]

theorem LogMsgTracer.TraceSub_line (f : Frame LogMsgTracer) (topic state : String)
    (traceID : Nat) (clientID : String) :
    (LogMsgTracer.TraceSub f topic state traceID clientID).world.out =
      f.world.out ++
        [Event.logf subFormat [.str topic, .uint64 f.msg.TraceID, .msgID f.msg.ID,
          .offset f.msg.offset, .str state, .str clientID,
          .int64 (f.world.clock f.world.ticks), .uint16 f.msg.Attempts]] := by
  simp [LogMsgTracer.TraceSub, World.now, World.Logf]

theorem RemoteMsgTracer.TracePub_out (D : Int) (f : Frame RemoteMsgTracer) (topic : String)
    (traceID : Nat) (diskOffset : BackendOffset) (currentCnt : Int) :
    (RemoteMsgTracer.TracePub D f topic traceID diskOffset currentCnt).world.out =
      f.world.out ++
        (Event.info f.self.remoteLogger
            (Sprintf pubFormat [.str topic, .uint64 f.msg.TraceID, .msgID f.msg.ID,
              .offset diskOffset, .int64 currentCnt, .int64 (f.world.clock f.world.ticks)])
            { module := "msgtracer"
              items := [("msgid", .msgID f.msg.ID), ("traceid", .uint64 f.msg.TraceID),
                ("topic", .str topic), ("timestamp", .int64 (f.world.clock f.world.ticks)),
                ("action", .str "PUB")] } ::
          match f.world.sendResult f.world.sends with
          | some e =>
            [Event.warningf warnFormat [.err e],
              Event.logf pubFormat [.str topic, .uint64 f.msg.TraceID, .msgID f.msg.ID,
                .offset diskOffset, .int64 currentCnt,
                .int64 (f.world.clock (f.world.ticks + 1))]]
          | none =>
            if D ≤ f.world.level then
              [Event.logf pubFormat [.str topic, .uint64 f.msg.TraceID, .msgID f.msg.ID,
                .offset diskOffset, .int64 currentCnt,
                .int64 (f.world.clock (f.world.ticks + 1))]]
            else []) := by
  unfold RemoteMsgTracer.TracePub
  cases h : f.world.sendResult f.world.sends <;>
    by_cases hl : D ≤ f.world.level <;>
    simp [World.now, World.Info, World.Warningf, World.Logf, RemoteMsgTracer.onLocal,
      LogMsgTracer.TracePub, NewDetailInfo, DetailInfo.AddLogItem, traceModule, h, hl]

theorem RemoteMsgTracer.TraceSub_out (D : Int) (f : Frame RemoteMsgTracer) (topic state : String)
    (traceID : Nat) (clientID : String) :
    (RemoteMsgTracer.TraceSub D f topic state traceID clientID).world.out =
      f.world.out ++
        (Event.info f.self.remoteLogger
            (Sprintf subFormat [.str topic, .uint64 f.msg.TraceID, .msgID f.msg.ID,
              .offset f.msg.offset, .str state, .str clientID,
              .int64 (f.world.clock (f.world.ticks + 1)), .uint16 f.msg.Attempts])
            { module := "msgtracer"
              items := [("msgid", .msgID f.msg.ID), ("traceid", .uint64 f.msg.TraceID),
                ("topic", .str topic), ("timestamp", .int64 (f.world.clock f.world.ticks)),
                ("action", .str state)] } ::
          match f.world.sendResult f.world.sends with
          | some e =>
            [Event.warningf warnFormat [.err e],
              Event.logf subFormat [.str topic, .uint64 f.msg.TraceID, .msgID f.msg.ID,
                .offset f.msg.offset, .str state, .str clientID,
                .int64 (f.world.clock (f.world.ticks + 2)), .uint16 f.msg.Attempts]]
          | none =>
            if D ≤ f.world.level then
              [Event.logf subFormat [.str topic, .uint64 f.msg.TraceID, .msgID f.msg.ID,
                .offset f.msg.offset, .str state, .str clientID,
                .int64 (f.world.clock (f.world.ticks + 2)), .uint16 f.msg.Attempts]]
            else []) := by
  unfold RemoteMsgTracer.TraceSub
  cases h : f.world.sendResult f.world.sends <;>
    by_cases hl : D ≤ f.world.level <;>
    simp [World.now, World.Info, World.Warningf, World.Logf, RemoteMsgTracer.onLocal,
      LogMsgTracer.TraceSub, NewDetailInfo, DetailInfo.AddLogItem, traceModule, h, hl]

theorem RemoteMsgTracer.TracePub_rest (D : Int) (f : Frame RemoteMsgTracer) (topic : String)
    (traceID : Nat) (diskOffset : BackendOffset) (currentCnt : Int) :
    (RemoteMsgTracer.TracePub D f topic traceID diskOffset currentCnt).self = f.self ∧
    (RemoteMsgTracer.TracePub D f topic traceID diskOffset currentCnt).msg = f.msg ∧
    (RemoteMsgTracer.TracePub D f topic traceID diskOffset currentCnt).world.nsqMsgTracer
      = f.world.nsqMsgTracer ∧
    (RemoteMsgTracer.TracePub D f topic traceID diskOffset currentCnt).world.sends
      = f.world.sends + 1 := by
  unfold RemoteMsgTracer.TracePub
  cases h : f.world.sendResult f.world.sends <;>
    by_cases hl : D ≤ f.world.level <;>
    simp [World.now, World.Info, World.Warningf, World.Logf, RemoteMsgTracer.onLocal,
      LogMsgTracer.TracePub, h, hl]

theorem RemoteMsgTracer.TraceSub_rest (D : Int) (f : Frame RemoteMsgTracer) (topic state : String)
    (traceID : Nat) (clientID : String) :
    (RemoteMsgTracer.TraceSub D f topic state traceID clientID).self = f.self ∧
    (RemoteMsgTracer.TraceSub D f topic state traceID clientID).msg = f.msg ∧
    (RemoteMsgTracer.TraceSub D f topic state traceID clientID).world.nsqMsgTracer
      = f.world.nsqMsgTracer ∧
    (RemoteMsgTracer.TraceSub D f topic state traceID clientID).world.sends
      = f.world.sends + 1 := by
  unfold RemoteMsgTracer.TraceSub
  cases h : f.world.sendResult f.world.sends <;>
    by_cases hl : D ≤ f.world.level <;>
    simp [World.now, World.Info, World.Warningf, World.Logf, RemoteMsgTracer.onLocal,
      LogMsgTracer.TraceSub, h, hl]

theorem RemoteMsgTracer.TracePub_mid (D : Int) (f : Frame RemoteMsgTracer)
    (topic : String) (traceID : Nat) (diskOffset : BackendOffset) (currentCnt : Int) :
    ∃ (mid : World) (evs : List Event),
      mid.out = f.world.out ++ evs ∧ evs.countP Event.isLogf = 0 ∧
      RemoteMsgTracer.TracePub D f topic traceID diskOffset currentCnt =
        if f.world.sendResult f.world.sends ≠ none ∨ D ≤ f.world.level then
          RemoteMsgTracer.onLocal { f with world := mid }
            (fun g => LogMsgTracer.TracePub g topic traceID diskOffset currentCnt)
        else { f with world := mid } := by
  unfold RemoteMsgTracer.TracePub
  simp only [World.now, World.Info]
  generalize Sprintf pubFormat _ = l
  generalize DetailInfo.AddLogItem _ "action" _ = detail
  cases h : f.world.sendResult f.world.sends with
  | none =>
    refine ⟨{ f.world with
        ticks := f.world.ticks + 1, sends := f.world.sends + 1,
        out := f.world.out ++ [Event.info f.self.remoteLogger l detail] },
      [Event.info f.self.remoteLogger l detail], rfl, rfl, ?_⟩
    by_cases hl : D ≤ f.world.level <;> simp [hl]
  | some e =>
    refine ⟨{ f.world with
        ticks := f.world.ticks + 1, sends := f.world.sends + 1,
        out := f.world.out ++ [Event.info f.self.remoteLogger l detail,
          Event.warningf warnFormat [.err e]] },
      [Event.info f.self.remoteLogger l detail, Event.warningf warnFormat [.err e]],
      rfl, rfl, ?_⟩
    simp [World.Warningf]

theorem RemoteMsgTracer.TraceSub_mid (D : Int) (f : Frame RemoteMsgTracer)
    (topic state : String) (traceID : Nat) (clientID : String) :
    ∃ (mid : World) (evs : List Event),
      mid.out = f.world.out ++ evs ∧ evs.countP Event.isLogf = 0 ∧
      RemoteMsgTracer.TraceSub D f topic state traceID clientID =
        if f.world.sendResult f.world.sends ≠ none ∨ D ≤ f.world.level then
          RemoteMsgTracer.onLocal { f with world := mid }
            (fun g => LogMsgTracer.TraceSub g topic state traceID clientID)
        else { f with world := mid } := by
  unfold RemoteMsgTracer.TraceSub
  simp only [World.now, World.Info]
  generalize Sprintf subFormat _ = l
  generalize DetailInfo.AddLogItem _ "action" _ = detail
  cases h : f.world.sendResult f.world.sends with
  | none =>
    refine ⟨{ f.world with
        ticks := f.world.ticks + 1 + 1, sends := f.world.sends + 1,
        out := f.world.out ++ [Event.info f.self.remoteLogger l detail] },
      [Event.info f.self.remoteLogger l detail], rfl, rfl, ?_⟩
    by_cases hl : D ≤ f.world.level <;> simp [hl]
  | some e =>
    refine ⟨{ f.world with
        ticks := f.world.ticks + 1 + 1, sends := f.world.sends + 1,
        out := f.world.out ++ [Event.info f.self.remoteLogger l detail,
          Event.warningf warnFormat [.err e]] },
      [Event.info f.self.remoteLogger l detail, Event.warningf warnFormat [.err e]],
      rfl, rfl, ?_⟩
    simp [World.Warningf]

/-! ## Occurrences in a line -/

theorem occurs_of_mem (x : List Char) (L : List (List Char)) (h : x ∈ L) :
    x <:+: L.flatten := by
  induction L with
  | nil => cases h
  | cons y L ih =>
    rcases List.mem_cons.mp h with rfl | h
    · exact ⟨[], L.flatten, by simp⟩
    · obtain ⟨s, t, e⟩ := ih h
      exact ⟨y ++ s, t, by simp [← e]⟩

theorem pubFormat_occurs (a1 a2 a3 a4 a5 a6 x : LogValue)
    (h : x ∈ [a1, a2, a3, a4, a5, a6]) :
    occursIn x.render (Sprintf pubFormat [a1, a2, a3, a4, a5, a6]) := by
  have e : (Sprintf pubFormat [a1, a2, a3, a4, a5, a6]).data =
      List.flatten ["[TRACE] topic ".data, a1.render.data, " trace id ".data, a2.render.data,
        ": message ".data, a3.render.data, " put at offset: ".data, a4.render.data,
        ", current count: ".data, a5.render.data, " at time ".data, a6.render.data] := by
    rw [Sprintf_pubFormat]; simp
  unfold occursIn
  rw [e]
  apply occurs_of_mem
  simp only [List.mem_cons, List.not_mem_nil, or_false] at h
  rcases h with rfl | rfl | rfl | rfl | rfl | rfl <;> simp

theorem subFormat_occurs (a1 a2 a3 a4 a5 a6 a7 a8 x : LogValue)
    (h : x ∈ [a1, a2, a3, a4, a5, a6, a7, a8]) :
    occursIn x.render (Sprintf subFormat [a1, a2, a3, a4, a5, a6, a7, a8]) := by
  have e : (Sprintf subFormat [a1, a2, a3, a4, a5, a6, a7, a8]).data =
      List.flatten ["[TRACE] topic ".data, a1.render.data, " trace id ".data, a2.render.data,
        ": message ".data, a3.render.data, " (offset: ".data, a4.render.data,
        ") consume state ".data, a5.render.data, " from client ".data, a6.render.data,
        " at time: ".data, a7.render.data, ", attempt: ".data, a8.render.data] := by
    rw [Sprintf_subFormat]; simp
  unfold occursIn
  rw [e]
  apply occurs_of_mem
  simp only [List.mem_cons, List.not_mem_nil, or_false] at h
  rcases h with rfl | rfl | rfl | rfl | rfl | rfl | rfl | rfl <;> simp

theorem warnFormat_occurs (a : LogValue) :
    occursIn a.render (Sprintf warnFormat [a]) := by
  unfold occursIn
  rw [Sprintf_warnFormat]
  exact ⟨"send log to remote error: ".data, [], by simp⟩

/-! ## The local recorder -/

/-- C3: for every input, `LogMsgTracer.TracePub` makes exactly one `Logf` call,
and the line it writes contains the topic, the trace id of the message, the
message id, the offset and the current count; `LogMsgTracer.TraceSub` makes
exactly one `Logf` call, and its line contains the topic, the trace id of the
message, the message id, the offset of the message, the state, the client id and
the attempt count. In the two scenarios of the spec the lines contain `orders`,
`42`, `m1`, `1000`, `5` and `orders`, `42`, `m1`, `1000`, `FIN`, `c1`, `2`. -/
theorem LogMsgTracer.one_line_with_every_field (f : Frame LogMsgTracer)
    (topic state clientID : String) (traceID : Nat) (diskOffset : BackendOffset)
    (currentCnt : Int) :
    (∃ line, emitted f.world (LogMsgTracer.TracePub f topic traceID diskOffset currentCnt).world
          = [line] ∧
        line.isLogf = true ∧
        occursIn topic line.text ∧ occursIn (toString f.msg.TraceID) line.text ∧
        occursIn f.msg.ID.text line.text ∧ occursIn (toString diskOffset) line.text ∧
        occursIn (toString currentCnt) line.text) ∧
    (∃ line, emitted f.world (LogMsgTracer.TraceSub f topic state traceID clientID).world
          = [line] ∧
        line.isLogf = true ∧
        occursIn topic line.text ∧ occursIn (toString f.msg.TraceID) line.text ∧
        occursIn f.msg.ID.text line.text ∧ occursIn (toString f.msg.offset) line.text ∧
        occursIn state line.text ∧ occursIn clientID line.text ∧
        occursIn (toString f.msg.Attempts) line.text) ∧
    (∃ line, emitted f.world
          (LogMsgTracer.TracePub { f with msg := scenarioMsg } "orders" 42 1000 5).world
          = [line] ∧
        occursIn "orders" line.text ∧ occursIn "42" line.text ∧ occursIn "m1" line.text ∧
        occursIn "1000" line.text ∧ occursIn "5" line.text) ∧
    (∃ line, emitted f.world
          (LogMsgTracer.TraceSub { f with msg := scenarioMsg } "orders" "FIN" 42 "c1").world
          = [line] ∧
        occursIn "orders" line.text ∧ occursIn "42" line.text ∧ occursIn "m1" line.text ∧
        occursIn "1000" line.text ∧ occursIn "FIN" line.text ∧ occursIn "c1" line.text ∧
        occursIn "2" line.text) := by
  refine ⟨⟨_, emitted_append _ _ _ (LogMsgTracer.TracePub_line f topic traceID diskOffset
      currentCnt), rfl, ?_, ?_, ?_, ?_, ?_⟩,
    ⟨_, emitted_append _ _ _ (LogMsgTracer.TraceSub_line f topic state traceID clientID),
      rfl, ?_, ?_, ?_, ?_, ?_, ?_, ?_⟩,
    ⟨_, emitted_append _ _ _ (LogMsgTracer.TracePub_line { f with msg := scenarioMsg }
      "orders" 42 1000 5), ?_, ?_, ?_, ?_, ?_⟩,
    ⟨_, emitted_append _ _ _ (LogMsgTracer.TraceSub_line { f with msg := scenarioMsg }
      "orders" "FIN" 42 "c1"), ?_, ?_, ?_, ?_, ?_, ?_, ?_⟩⟩
  · exact pubFormat_occurs _ _ _ _ _ _ (.str topic) (by simp)
  · exact pubFormat_occurs _ _ _ _ _ _ (.uint64 f.msg.TraceID) (by simp)
  · exact pubFormat_occurs _ _ _ _ _ _ (.msgID f.msg.ID) (by simp)
  · exact pubFormat_occurs _ _ _ _ _ _ (.offset diskOffset) (by simp)
  · exact pubFormat_occurs _ _ _ _ _ _ (.int64 currentCnt) (by simp)
  · exact subFormat_occurs _ _ _ _ _ _ _ _ (.str topic) (by simp)
  · exact subFormat_occurs _ _ _ _ _ _ _ _ (.uint64 f.msg.TraceID) (by simp)
  · exact subFormat_occurs _ _ _ _ _ _ _ _ (.msgID f.msg.ID) (by simp)
  · exact subFormat_occurs _ _ _ _ _ _ _ _ (.offset f.msg.offset) (by simp)
  · exact subFormat_occurs _ _ _ _ _ _ _ _ (.str state) (by simp)
  · exact subFormat_occurs _ _ _ _ _ _ _ _ (.str clientID) (by simp)
  · exact subFormat_occurs _ _ _ _ _ _ _ _ (.uint16 f.msg.Attempts) (by simp)
  · exact pubFormat_occurs _ _ _ _ _ _ (.str "orders") (by simp)
  · exact pubFormat_occurs _ _ _ _ _ _ (.uint64 42) (by simp [scenarioMsg])
  · exact pubFormat_occurs _ _ _ _ _ _ (.msgID ⟨"m1"⟩) (by simp [scenarioMsg])
  · exact pubFormat_occurs _ _ _ _ _ _ (.offset 1000) (by simp)
  · exact pubFormat_occurs _ _ _ _ _ _ (.int64 5) (by simp)
  · exact subFormat_occurs _ _ _ _ _ _ _ _ (.str "orders") (by simp)
  · exact subFormat_occurs _ _ _ _ _ _ _ _ (.uint64 42) (by simp [scenarioMsg])
  · exact subFormat_occurs _ _ _ _ _ _ _ _ (.msgID ⟨"m1"⟩) (by simp [scenarioMsg])
  · exact subFormat_occurs _ _ _ _ _ _ _ _ (.offset 1000) (by simp [scenarioMsg])
  · exact subFormat_occurs _ _ _ _ _ _ _ _ (.str "FIN") (by simp)
  · exact subFormat_occurs _ _ _ _ _ _ _ _ (.str "c1") (by simp)
  · exact subFormat_occurs _ _ _ _ _ _ _ _ (.uint16 2) (by simp [scenarioMsg])

/-! ## The remote recorder -/

/-- C1: the fallback rule. A call of `RemoteMsgTracer.TracePub` or of
`RemoteMsgTracer.TraceSub` first reaches a state `mid` in which it has written
no local line; it then ends with one call of the same method of the local
recorder on the same arguments when the send returned an error or the log
level is at least `LOG_DEBUG`, and ends in `mid` otherwise. So the call writes
exactly one local line if and only if the send failed or the level is at least
`LOG_DEBUG`, and none if and only if the send succeeded below that level. -/
theorem RemoteMsgTracer.fallback_rule (LOG_DEBUG : Int) (f : Frame RemoteMsgTracer)
    (topic state clientID : String) (traceID : Nat) (diskOffset : BackendOffset)
    (currentCnt : Int) :
    (∃ (mid : World) (evs : List Event),
        mid.out = f.world.out ++ evs ∧ evs.countP Event.isLogf = 0 ∧
        RemoteMsgTracer.TracePub LOG_DEBUG f topic traceID diskOffset currentCnt =
          if f.world.sendResult f.world.sends ≠ none ∨ LOG_DEBUG ≤ f.world.level then
            RemoteMsgTracer.onLocal { f with world := mid }
              (fun g => LogMsgTracer.TracePub g topic traceID diskOffset currentCnt)
          else { f with world := mid }) ∧
    ((emitted f.world
          (RemoteMsgTracer.TracePub LOG_DEBUG f topic traceID diskOffset currentCnt).world).countP
        Event.isLogf = 1 ↔
      (f.world.sendResult f.world.sends ≠ none ∨ LOG_DEBUG ≤ f.world.level)) ∧
    ((emitted f.world
          (RemoteMsgTracer.TracePub LOG_DEBUG f topic traceID diskOffset currentCnt).world).countP
        Event.isLogf = 0 ↔
      (f.world.sendResult f.world.sends = none ∧ f.world.level < LOG_DEBUG)) ∧
    (∃ (mid : World) (evs : List Event),
        mid.out = f.world.out ++ evs ∧ evs.countP Event.isLogf = 0 ∧
        RemoteMsgTracer.TraceSub LOG_DEBUG f topic state traceID clientID =
          if f.world.sendResult f.world.sends ≠ none ∨ LOG_DEBUG ≤ f.world.level then
            RemoteMsgTracer.onLocal { f with world := mid }
              (fun g => LogMsgTracer.TraceSub g topic state traceID clientID)
          else { f with world := mid }) ∧
    ((emitted f.world
          (RemoteMsgTracer.TraceSub LOG_DEBUG f topic state traceID clientID).world).countP
        Event.isLogf = 1 ↔
      (f.world.sendResult f.world.sends ≠ none ∨ LOG_DEBUG ≤ f.world.level)) ∧
    ((emitted f.world
          (RemoteMsgTracer.TraceSub LOG_DEBUG f topic state traceID clientID).world).countP
        Event.isLogf = 0 ↔
      (f.world.sendResult f.world.sends = none ∧ f.world.level < LOG_DEBUG)) := by
  rw [emitted_append _ _ _ (RemoteMsgTracer.TracePub_out LOG_DEBUG f topic traceID diskOffset
      currentCnt),
    emitted_append _ _ _ (RemoteMsgTracer.TraceSub_out LOG_DEBUG f topic state traceID
      clientID)]
  refine ⟨RemoteMsgTracer.TracePub_mid LOG_DEBUG f topic traceID diskOffset currentCnt, ?_, ?_,
    RemoteMsgTracer.TraceSub_mid LOG_DEBUG f topic state traceID clientID, ?_, ?_⟩ <;>
  cases h : f.world.sendResult f.world.sends <;>
    by_cases hl : LOG_DEBUG ≤ f.world.level <;>
    simp [Event.isLogf, hl, not_le.mp]

/-- C2: when the send fails with an error `e`, a call of
`RemoteMsgTracer.TracePub` (of `RemoteMsgTracer.TraceSub`) makes, after the
send, exactly one `Warningf` call, whose argument is `e` and whose text
contains the text of `e`, and then exactly one `Logf` call, with the format
and the arguments of the line that `LogMsgTracer.TracePub`
(`LogMsgTracer.TraceSub`) writes for the same arguments, the clock reading
apart. When the send succeeds the call makes no `Warningf` call, whatever the
log level. -/
theorem RemoteMsgTracer.failed_send_line_and_warning (LOG_DEBUG : Int)
    (f : Frame RemoteMsgTracer) (topic state clientID : String) (traceID : Nat)
    (diskOffset : BackendOffset) (currentCnt : Int) :
    (∀ e, f.world.sendResult f.world.sends = some e →
      ∃ (send local_line : Event) (t t' : Int),
        emitted f.world
            (RemoteMsgTracer.TracePub LOG_DEBUG f topic traceID diskOffset currentCnt).world =
          [send, Event.warningf warnFormat [.err e], local_line] ∧
        send.isInfo = true ∧
        occursIn e.text (Event.warningf warnFormat [.err e]).text ∧
        local_line = Event.logf pubFormat [.str topic, .uint64 f.msg.TraceID,
          .msgID f.msg.ID, .offset diskOffset, .int64 currentCnt, .int64 t] ∧
        emitted f.world
            (LogMsgTracer.TracePub { self := f.self.localTracer, msg := f.msg, world := f.world }
              topic traceID diskOffset currentCnt).world =
          [Event.logf pubFormat [.str topic, .uint64 f.msg.TraceID,
            .msgID f.msg.ID, .offset diskOffset, .int64 currentCnt, .int64 t']]) ∧
    (∀ e, f.world.sendResult f.world.sends = some e →
      ∃ (send local_line : Event) (t t' : Int),
        emitted f.world
            (RemoteMsgTracer.TraceSub LOG_DEBUG f topic state traceID clientID).world =
          [send, Event.warningf warnFormat [.err e], local_line] ∧
        send.isInfo = true ∧
        occursIn e.text (Event.warningf warnFormat [.err e]).text ∧
        local_line = Event.logf subFormat [.str topic, .uint64 f.msg.TraceID,
          .msgID f.msg.ID, .offset f.msg.offset, .str state, .str clientID, .int64 t,
          .uint16 f.msg.Attempts] ∧
        emitted f.world
            (LogMsgTracer.TraceSub { self := f.self.localTracer, msg := f.msg, world := f.world }
              topic state traceID clientID).world =
          [Event.logf subFormat [.str topic, .uint64 f.msg.TraceID,
            .msgID f.msg.ID, .offset f.msg.offset, .str state, .str clientID, .int64 t',
            .uint16 f.msg.Attempts]]) ∧
    ((emitted f.world
          (RemoteMsgTracer.TracePub LOG_DEBUG f topic traceID diskOffset currentCnt).world).countP
        Event.isWarningf =
      if f.world.sendResult f.world.sends = none then 0 else 1) ∧
    ((emitted f.world
          (RemoteMsgTracer.TraceSub LOG_DEBUG f topic state traceID clientID).world).countP
        Event.isWarningf =
      if f.world.sendResult f.world.sends = none then 0 else 1) := by
  rw [emitted_append _ _ _ (RemoteMsgTracer.TracePub_out LOG_DEBUG f topic traceID diskOffset
      currentCnt),
    emitted_append _ _ _ (RemoteMsgTracer.TraceSub_out LOG_DEBUG f topic state traceID
      clientID),
    emitted_append f.world _ _ (LogMsgTracer.TracePub_line
      { self := f.self.localTracer, msg := f.msg, world := f.world }
      topic traceID diskOffset currentCnt),
    emitted_append f.world _ _ (LogMsgTracer.TraceSub_line
      { self := f.self.localTracer, msg := f.msg, world := f.world }
      topic state traceID clientID)]
  refine ⟨?_, ?_, ?_, ?_⟩
  · intro e h
    rw [h]
    exact ⟨_, _, _, _, rfl, rfl, warnFormat_occurs (.err e), rfl, rfl⟩
  · intro e h
    rw [h]
    exact ⟨_, _, _, _, rfl, rfl, warnFormat_occurs (.err e), rfl, rfl⟩
  · cases h : f.world.sendResult f.world.sends <;>
      by_cases hl : LOG_DEBUG ≤ f.world.level <;>
      simp [Event.isWarningf, hl]
  · cases h : f.world.sendResult f.world.sends <;>
      by_cases hl : LOG_DEBUG ≤ f.world.level <;>
      simp [Event.isWarningf, hl]

/-- C2 at a send that fails with `connection refused`, on the publish
scenario: the call makes the send, then the warning for that error, then one
local line. -/
theorem RemoteMsgTracer.failed_send_line_and_warning_witness :
    (World.fresh 0 (some { text := "connection refused" })).sendResult 0 =
      some { text := "connection refused" } ∧
    ∃ (send local_line : Event),
      emitted (World.fresh 0 (some { text := "connection refused" }))
          (RemoteMsgTracer.TracePub 3
            { self := scenarioRemote, msg := scenarioMsg
              world := World.fresh 0 (some { text := "connection refused" }) }
            "orders" 42 1000 5).world =
        [send, Event.warningf warnFormat [.err { text := "connection refused" }], local_line] ∧
      send.isInfo = true ∧ local_line.isLogf = true := by
  obtain ⟨send, line, t, t', h1, h2, _, h4, _⟩ :=
    (RemoteMsgTracer.failed_send_line_and_warning 3
      { self := scenarioRemote, msg := scenarioMsg
        world := World.fresh 0 (some { text := "connection refused" }) }
      "orders" "FIN" "c1" 42 1000 5).1 { text := "connection refused" } rfl
  exact ⟨rfl, send, line, h1, h2, by rw [h4]; rfl⟩

/-- C6: in every call of `RemoteMsgTracer.TracePub` and of
`RemoteMsgTracer.TraceSub` the first call made is the send, on the transport of
the recorder, and no later call is a send; the detail record handed over is for
module `msgtracer` and holds exactly the items `msgid` (the ID of the message),
`traceid` (the trace id of the message), `topic` (the topic argument),
`timestamp` (the first clock reading of the call) and `action` (`PUB` for
`TracePub`, the state argument for `TraceSub`), in this order. -/
theorem RemoteMsgTracer.detail_record (LOG_DEBUG : Int) (f : Frame RemoteMsgTracer)
    (topic state clientID : String) (traceID : Nat) (diskOffset : BackendOffset)
    (currentCnt : Int) :
    (∃ (l : String) (rest : List Event),
      emitted f.world
          (RemoteMsgTracer.TracePub LOG_DEBUG f topic traceID diskOffset currentCnt).world =
        Event.info f.self.remoteLogger l
          { module := "msgtracer"
            items := [("msgid", .msgID f.msg.ID), ("traceid", .uint64 f.msg.TraceID),
              ("topic", .str topic), ("timestamp", .int64 f.world.now.1),
              ("action", .str "PUB")] } :: rest ∧
      rest.countP Event.isInfo = 0) ∧
    (∃ (l : String) (rest : List Event),
      emitted f.world
          (RemoteMsgTracer.TraceSub LOG_DEBUG f topic state traceID clientID).world =
        Event.info f.self.remoteLogger l
          { module := "msgtracer"
            items := [("msgid", .msgID f.msg.ID), ("traceid", .uint64 f.msg.TraceID),
              ("topic", .str topic), ("timestamp", .int64 f.world.now.1),
              ("action", .str state)] } :: rest ∧
      rest.countP Event.isInfo = 0) := by
  rw [emitted_append _ _ _ (RemoteMsgTracer.TracePub_out LOG_DEBUG f topic traceID diskOffset
      currentCnt),
    emitted_append _ _ _ (RemoteMsgTracer.TraceSub_out LOG_DEBUG f topic state traceID
      clientID)]
  refine ⟨⟨_, _, rfl, ?_⟩, ⟨_, _, rfl, ?_⟩⟩ <;>
  cases h : f.world.sendResult f.world.sends <;>
    by_cases hl : LOG_DEBUG ≤ f.world.level <;>
    simp [Event.isInfo, hl]

/-- C7: every call of `RemoteMsgTracer.TracePub` and of
`RemoteMsgTracer.TraceSub` makes exactly one `Info` call on the transport,
whatever that call returns and whatever the log level: one send is counted and
one more result of the transport is consumed. The methods return nothing, so
the error of a failed send does not reach the caller. -/
theorem RemoteMsgTracer.exactly_one_send (LOG_DEBUG : Int) (f : Frame RemoteMsgTracer)
    (topic state clientID : String) (traceID : Nat) (diskOffset : BackendOffset)
    (currentCnt : Int) :
    (emitted f.world
        (RemoteMsgTracer.TracePub LOG_DEBUG f topic traceID diskOffset currentCnt).world).countP
      Event.isInfo = 1 ∧
    (RemoteMsgTracer.TracePub LOG_DEBUG f topic traceID diskOffset currentCnt).world.sends =
      f.world.sends + 1 ∧
    (emitted f.world
        (RemoteMsgTracer.TraceSub LOG_DEBUG f topic state traceID clientID).world).countP
      Event.isInfo = 1 ∧
    (RemoteMsgTracer.TraceSub LOG_DEBUG f topic state traceID clientID).world.sends =
      f.world.sends + 1 := by
  rw [emitted_append _ _ _ (RemoteMsgTracer.TracePub_out LOG_DEBUG f topic traceID diskOffset
      currentCnt),
    emitted_append _ _ _ (RemoteMsgTracer.TraceSub_out LOG_DEBUG f topic state traceID
      clientID)]
  refine ⟨?_, (RemoteMsgTracer.TracePub_rest LOG_DEBUG f topic traceID diskOffset
      currentCnt).2.2.2, ?_,
    (RemoteMsgTracer.TraceSub_rest LOG_DEBUG f topic state traceID clientID).2.2.2⟩ <;>
  cases h : f.world.sendResult f.world.sends <;>
    by_cases hl : LOG_DEBUG ≤ f.world.level <;>
    simp [Event.isInfo, hl]

/-- C8: a call of `TracePub` or of `TraceSub`, on a `LogMsgTracer` and on a
`RemoteMsgTracer`, leaves the message (`ID`, `TraceID`, `offset`, `Attempts`),
the fields of the recorder (`remoteAddr`, `remoteLogger`, `localTracer`) and
the package variable `nsqMsgTracer` as they were. -/
theorem recorders_mutate_nothing (LOG_DEBUG : Int) (g : Frame LogMsgTracer)
    (f : Frame RemoteMsgTracer) (topic state clientID : String) (traceID : Nat)
    (diskOffset : BackendOffset) (currentCnt : Int) :
    ((LogMsgTracer.TracePub g topic traceID diskOffset currentCnt).msg = g.msg ∧
      (LogMsgTracer.TracePub g topic traceID diskOffset currentCnt).self = g.self ∧
      (LogMsgTracer.TracePub g topic traceID diskOffset currentCnt).world.nsqMsgTracer =
        g.world.nsqMsgTracer) ∧
    ((LogMsgTracer.TraceSub g topic state traceID clientID).msg = g.msg ∧
      (LogMsgTracer.TraceSub g topic state traceID clientID).self = g.self ∧
      (LogMsgTracer.TraceSub g topic state traceID clientID).world.nsqMsgTracer =
        g.world.nsqMsgTracer) ∧
    ((RemoteMsgTracer.TracePub LOG_DEBUG f topic traceID diskOffset currentCnt).msg = f.msg ∧
      (RemoteMsgTracer.TracePub LOG_DEBUG f topic traceID diskOffset currentCnt).self = f.self ∧
      (RemoteMsgTracer.TracePub LOG_DEBUG f topic traceID diskOffset
        currentCnt).world.nsqMsgTracer = f.world.nsqMsgTracer) ∧
    ((RemoteMsgTracer.TraceSub LOG_DEBUG f topic state traceID clientID).msg = f.msg ∧
      (RemoteMsgTracer.TraceSub LOG_DEBUG f topic state traceID clientID).self = f.self ∧
      (RemoteMsgTracer.TraceSub LOG_DEBUG f topic state traceID clientID).world.nsqMsgTracer =
        f.world.nsqMsgTracer) := by
  have hp := RemoteMsgTracer.TracePub_rest LOG_DEBUG f topic traceID diskOffset currentCnt
  have hs := RemoteMsgTracer.TraceSub_rest LOG_DEBUG f topic state traceID clientID
  exact ⟨⟨rfl, rfl, rfl⟩, ⟨rfl, rfl, rfl⟩, ⟨hp.2.1, hp.1, hp.2.2.1⟩, ⟨hs.2.1, hs.1, hs.2.2.1⟩⟩

/-! ## The process-wide recorder -/

/-- C4: `SetRemoteMsgTracer("")` changes nothing, so after `init` and
`SetRemoteMsgTracer("")` the recorder in `nsqMsgTracer` is the `LogMsgTracer`
that `init` installed, and a call of `TracePub` or of `TraceSub` through it
does, for every input, what the method of `LogMsgTracer` does. -/
theorem SetRemoteMsgTracer_empty_keeps_local (LOG_DEBUG : Int) (w w' : World) (msg : Message)
    (topic state clientID : String) (traceID : Nat) (diskOffset : BackendOffset)
    (currentCnt : Int) :
    SetRemoteMsgTracer w "" = w ∧
    ∃ t : LogMsgTracer,
      (SetRemoteMsgTracer (init w) "").nsqMsgTracer = some (.log t) ∧
      (init w).nsqMsgTracer = some (.log t) ∧
      IMsgTracer.TracePub LOG_DEBUG { self := .log t, msg := msg, world := w' }
          topic traceID diskOffset currentCnt =
        { self := .log (LogMsgTracer.TracePub { self := t, msg := msg, world := w' }
            topic traceID diskOffset currentCnt).self
          msg := (LogMsgTracer.TracePub { self := t, msg := msg, world := w' }
            topic traceID diskOffset currentCnt).msg
          world := (LogMsgTracer.TracePub { self := t, msg := msg, world := w' }
            topic traceID diskOffset currentCnt).world } ∧
      IMsgTracer.TraceSub LOG_DEBUG { self := .log t, msg := msg, world := w' }
          topic state traceID clientID =
        { self := .log (LogMsgTracer.TraceSub { self := t, msg := msg, world := w' }
            topic state traceID clientID).self
          msg := (LogMsgTracer.TraceSub { self := t, msg := msg, world := w' }
            topic state traceID clientID).msg
          world := (LogMsgTracer.TraceSub { self := t, msg := msg, world := w' }
            topic state traceID clientID).world } := by
  refine ⟨by simp [SetRemoteMsgTracer], { MID := "" }, by simp [SetRemoteMsgTracer, init],
    rfl, rfl, rfl⟩

/-- C5: for an address `a` that is not empty, `SetRemoteMsgTracer(a)` puts in
`nsqMsgTracer`, whatever it held, a `RemoteMsgTracer` whose `remoteAddr` is
`a`, whose transport is the one constructed for `a` and whose `localTracer` is
a `LogMsgTracer`; the rest of the process state is as it was. -/
theorem SetRemoteMsgTracer_installs_remote (w : World) (a : String) (h : a ≠ "") :
    (SetRemoteMsgTracer w a).nsqMsgTracer =
      some (.remote
        { remoteAddr := a
          remoteLogger := NewFlumeLoggerWithAddr a
          localTracer := { MID := "" } }) ∧
    (SetRemoteMsgTracer w a).out = w.out ∧
    (SetRemoteMsgTracer w a).level = w.level ∧
    (SetRemoteMsgTracer w a).ticks = w.ticks ∧
    (SetRemoteMsgTracer w a).sends = w.sends := by
  simp [SetRemoteMsgTracer, NewRemoteMsgTracer, h]

/-- C5 at the address `127.0.0.1:5140`, on a state in which `init` has
installed the local recorder. -/
theorem SetRemoteMsgTracer_installs_remote_witness :
    (World.fresh 0 none).nsqMsgTracer = some (.log { MID := "" }) ∧
    (SetRemoteMsgTracer (World.fresh 0 none) "127.0.0.1:5140").nsqMsgTracer =
      some (.remote scenarioRemote) :=
  ⟨rfl, (SetRemoteMsgTracer_installs_remote (World.fresh 0 none) "127.0.0.1:5140"
    (by decide)).1⟩

/-! ## The trace id and the timestamp of a record -/

set_option maxRecDepth 20000 in
/-- C9, as stated, fails: called with the `traceID` argument 7 on the message
of the scenarios, whose `TraceID` is 42, `LogMsgTracer.TracePub` writes a line
with trace id 42 in which 7 does not occur, and the record that
`RemoteMsgTracer.TracePub` sends has 42, not 7, as its `traceid`. -/
theorem traceID_argument_not_recorded :
    (emitted (World.fresh 0 none)
        (LogMsgTracer.TracePub
          { self := { MID := "" }, msg := scenarioMsg, world := World.fresh 0 none }
          "orders" 7 1000 5).world).map Event.text =
      ["[TRACE] topic orders trace id 42: message m1 put at offset: 1000, current count: 5 at time 100"] ∧
    ¬ occursIn "7"
      "[TRACE] topic orders trace id 42: message m1 put at offset: 1000, current count: 5 at time 100" ∧
    (emitted (World.fresh 0 none)
        (RemoteMsgTracer.TracePub 3
          { self := scenarioRemote, msg := scenarioMsg, world := World.fresh 0 none }
          "orders" 7 1000 5).world).map
        (fun ev => match ev with
          | .info _ l detail => (l, detail.item "traceid")
          | _ => ("", none)) =
      [("[TRACE] topic orders trace id 42: message m1 put at offset: 1000, current count: 5 at time 100",
        some (.uint64 42))] := by
  refine ⟨rfl, by decide, rfl⟩

/-- C9, amended: the trace id recorded is the `TraceID` field of the message;
the `traceID` argument is not read. For every call, the line of
`LogMsgTracer.TracePub` and of `LogMsgTracer.TraceSub`, and the summary line
and the `traceid` item of the record sent by `RemoteMsgTracer.TracePub` and by
`RemoteMsgTracer.TraceSub`, carry `msg.TraceID`, and the call does the same
for any two values of the `traceID` argument. -/
theorem traceID_of_message_recorded (LOG_DEBUG : Int) (g : Frame LogMsgTracer)
    (f : Frame RemoteMsgTracer) (topic state clientID : String) (traceID traceID' : Nat)
    (diskOffset : BackendOffset) (currentCnt : Int) :
    ((∃ t, emitted g.world (LogMsgTracer.TracePub g topic traceID diskOffset currentCnt).world =
          [Event.logf pubFormat [.str topic, .uint64 g.msg.TraceID, .msgID g.msg.ID,
            .offset diskOffset, .int64 currentCnt, .int64 t]]) ∧
      LogMsgTracer.TracePub g topic traceID diskOffset currentCnt =
        LogMsgTracer.TracePub g topic traceID' diskOffset currentCnt) ∧
    ((∃ t, emitted g.world (LogMsgTracer.TraceSub g topic state traceID clientID).world =
          [Event.logf subFormat [.str topic, .uint64 g.msg.TraceID, .msgID g.msg.ID,
            .offset g.msg.offset, .str state, .str clientID, .int64 t,
            .uint16 g.msg.Attempts]]) ∧
      LogMsgTracer.TraceSub g topic state traceID clientID =
        LogMsgTracer.TraceSub g topic state traceID' clientID) ∧
    ((∃ (t : Int) (detail : DetailInfo) (rest : List Event),
        emitted f.world
            (RemoteMsgTracer.TracePub LOG_DEBUG f topic traceID diskOffset currentCnt).world =
          Event.info f.self.remoteLogger
            (Sprintf pubFormat [.str topic, .uint64 f.msg.TraceID, .msgID f.msg.ID,
              .offset diskOffset, .int64 currentCnt, .int64 t]) detail :: rest ∧
        detail.item "traceid" = some (.uint64 f.msg.TraceID)) ∧
      RemoteMsgTracer.TracePub LOG_DEBUG f topic traceID diskOffset currentCnt =
        RemoteMsgTracer.TracePub LOG_DEBUG f topic traceID' diskOffset currentCnt) ∧
    ((∃ (t : Int) (detail : DetailInfo) (rest : List Event),
        emitted f.world
            (RemoteMsgTracer.TraceSub LOG_DEBUG f topic state traceID clientID).world =
          Event.info f.self.remoteLogger
            (Sprintf subFormat [.str topic, .uint64 f.msg.TraceID, .msgID f.msg.ID,
              .offset f.msg.offset, .str state, .str clientID, .int64 t,
              .uint16 f.msg.Attempts]) detail :: rest ∧
        detail.item "traceid" = some (.uint64 f.msg.TraceID)) ∧
      RemoteMsgTracer.TraceSub LOG_DEBUG f topic state traceID clientID =
        RemoteMsgTracer.TraceSub LOG_DEBUG f topic state traceID' clientID) := by
  rw [emitted_append _ _ _ (RemoteMsgTracer.TracePub_out LOG_DEBUG f topic traceID diskOffset
      currentCnt),
    emitted_append _ _ _ (RemoteMsgTracer.TraceSub_out LOG_DEBUG f topic state traceID
      clientID),
    emitted_append _ _ _ (LogMsgTracer.TracePub_line g topic traceID diskOffset currentCnt),
    emitted_append _ _ _ (LogMsgTracer.TraceSub_line g topic state traceID clientID)]
  exact ⟨⟨⟨_, rfl⟩, rfl⟩, ⟨⟨_, rfl⟩, rfl⟩, ⟨⟨_, _, _, rfl, rfl⟩, rfl⟩,
    ⟨⟨_, _, _, rfl, rfl⟩, rfl⟩⟩

/-- C10: in `RemoteMsgTracer.TracePub` the time printed in the summary line is
the `timestamp` item of the record, the first clock reading of the call. In
`RemoteMsgTracer.TraceSub` the summary line prints the second clock reading of
the call and the `timestamp` item is the first: with a clock that reads 100
and then 101, the line of the subscribe scenario says `at time: 101` and the
record says 100. -/
theorem RemoteMsgTracer.summary_time_and_timestamp (LOG_DEBUG : Int)
    (f : Frame RemoteMsgTracer) (topic state clientID : String) (traceID : Nat)
    (diskOffset : BackendOffset) (currentCnt : Int) :
    (∃ (detail : DetailInfo) (rest : List Event),
      emitted f.world
          (RemoteMsgTracer.TracePub LOG_DEBUG f topic traceID diskOffset currentCnt).world =
        Event.info f.self.remoteLogger
          (Sprintf pubFormat [.str topic, .uint64 f.msg.TraceID, .msgID f.msg.ID,
            .offset diskOffset, .int64 currentCnt, .int64 (f.world.clock f.world.ticks)])
          detail :: rest ∧
      detail.item "timestamp" = some (.int64 (f.world.clock f.world.ticks))) ∧
    (∃ (detail : DetailInfo) (rest : List Event),
      emitted f.world
          (RemoteMsgTracer.TraceSub LOG_DEBUG f topic state traceID clientID).world =
        Event.info f.self.remoteLogger
          (Sprintf subFormat [.str topic, .uint64 f.msg.TraceID, .msgID f.msg.ID,
            .offset f.msg.offset, .str state, .str clientID,
            .int64 (f.world.clock (f.world.ticks + 1)), .uint16 f.msg.Attempts])
          detail :: rest ∧
      detail.item "timestamp" = some (.int64 (f.world.clock f.world.ticks))) ∧
    (emitted (World.fresh 0 none)
        (RemoteMsgTracer.TraceSub 3
          { self := scenarioRemote, msg := scenarioMsg, world := World.fresh 0 none }
          "orders" "FIN" 42 "c1").world).map
        (fun ev => match ev with
          | .info _ l detail => (l, detail.item "timestamp")
          | _ => ("", none)) =
      [("[TRACE] topic orders trace id 42: message m1 (offset: 1000) consume state FIN from client c1 at time: 101, attempt: 2",
        some (.int64 100))] := by
  rw [emitted_append _ _ _ (RemoteMsgTracer.TracePub_out LOG_DEBUG f topic traceID diskOffset
      currentCnt),
    emitted_append _ _ _ (RemoteMsgTracer.TraceSub_out LOG_DEBUG f topic state traceID
      clientID)]
  exact ⟨⟨_, _, rfl, rfl⟩, ⟨_, _, rfl, rfl⟩, rfl⟩

end nsqd
